import Mathlib

/-!
Shallow embedding of `v3/internal/fileexplorer/fileexplorer.go`.

The Go module resolves a (platform, desktop-environment) pair to a file
explorer executable and argument list, launches it and maps the process
outcome to an error value.  The ambient effects of the Go code are made
explicit inputs here:

* `os.Stat path`    becomes a `Option PathInfo` argument (`none` = stat error);
* `runtime.GOOS`    becomes a `goos : String` argument;
* `os.Getenv "XDG_CURRENT_DESKTOP"` becomes an explicit `String` argument;
* the child process behaviour (`cmd.Start` / `cmd.Wait`) becomes a
  `ProcResult` argument; a non-zero exit status corresponds to `cmd.Wait`
  returning an `exec.ExitError`.

`Open` additionally returns the `(binary, args)` pair of a successfully
started child process (`none` when no process was started), so that the
"no process is launched" parts of the specification are statable.
-/

/-- Result of the `os.Stat` call: the only attribute the Go code consults
is `IsDir()`. -/
structure PathInfo where
  isDir : Bool
deriving DecidableEq

/-- Behaviour of the launched child process: `cmd.Start` fails, or the
process runs and exits with the given status code. -/
inductive ProcResult where
  | startFailure
  | exited (code : Nat)
deriving DecidableEq

/-- The distinct error outcomes of `Open`, one per `return` site
(`fmt.Errorf`/`errors.New`) in the Go function, plus success. -/
inductive OpenResult where
  | ok
  | pathAccessError
  | unsupportedPlatform
  | strategyError
  | processStartError
  | processExecError
deriving DecidableEq

/-- Go type `explorerBinArgs = func(path string, selectFile bool) (string, []string, error)`;
the last component models the `error` return (`none` = `nil`). -/
abbrev ExplorerBinArgs := String → Bool → String × List String × Option String

/-- One backtracking step of Go `path.Clean`: `out.w--` followed by
`for out.w > dotdot && out.index(out.w) != '/' { out.w-- }`.  The output
buffer is kept as a reversed list of characters; `c` is the character
dropped by the preceding decrement. -/
def backtrackLoop (dotdot : Nat) : List Char → Char → List Char
  | [], _ => []
  | c' :: rest, c =>
    if rest.length + 1 > dotdot ∧ c ≠ '/' then backtrackLoop dotdot rest c'
    else c' :: rest

/-- Removal of the last path element from the (reversed) output buffer,
as done by the `out.w > dotdot` branch of the `..` case of Go `path.Clean`. -/
def backtrack (dotdot : Nat) : List Char → List Char
  | [] => []
  | c :: rest => backtrackLoop dotdot rest c

/-- Whether the remaining input starts a new path element boundary:
end of input or a `/`.  This is Go `r+1 == n || path[r+1] == '/'`. -/
def segEnd : List Char → Bool
  | [] => true
  | c :: _ => c = '/'

/-- Separator insertion of the default case of Go `path.Clean`:
`if rooted && out.w != 1 || !rooted && out.w != 0 { out.append('/') }`.
The buffer is reversed, so appending is consing. -/
def appendSep (rooted : Bool) (out : List Char) : List Char :=
  if (rooted ∧ out.length ≠ 1) ∨ (¬ rooted ∧ out.length ≠ 0) then '/' :: out else out

/-- The scanning loop of Go `path.Clean` over the remaining input.
`copying` is true while inside the inner element-copying loop of the
default case (Go consumes a whole element with an inner `for`; here the
copy proceeds one character per step, which makes the recursion
structural).  `out` is the output buffer in reverse; `dotdot` is the
index up to which `..` backtracking may not erase. -/
def cleanLoop (rooted : Bool) : List Char → Bool → List Char → Nat → List Char
  | [], _, out, _ => out
  | c :: rest, true, out, dotdot =>
    if c = '/' then cleanLoop rooted rest false out dotdot
    else cleanLoop rooted rest true (c :: out) dotdot
  | '/' :: rest, false, out, dotdot =>
    cleanLoop rooted rest false out dotdot
  | ['.'], false, out, _ => out
  | '.' :: '/' :: rest, false, out, dotdot =>
    cleanLoop rooted ('/' :: rest) false out dotdot
  | '.' :: '.' :: rest2, false, out, dotdot =>
    if segEnd rest2 then
      if dotdot < out.length then
        cleanLoop rooted rest2 false (backtrack dotdot out) dotdot
      else if rooted then
        cleanLoop rooted rest2 false out dotdot
      else
        let out2 := '.' :: '.' :: (if 0 < out.length then '/' :: out else out)
        cleanLoop rooted rest2 false out2 out2.length
    else
      cleanLoop rooted ('.' :: rest2) true ('.' :: appendSep rooted out) dotdot
  | c :: rest, false, out, dotdot =>
    cleanLoop rooted rest true (c :: appendSep rooted out) dotdot

/-- Go `path.Clean` restricted to the Unix separator, as used by
`filepath.Clean` on Linux and macOS. -/
def clean (path : String) : String :=
  if path = "" then "."
  else
    let out :=
      match path.toList with
      | '/' :: rest => cleanLoop true rest false ['/'] 1
      | l => cleanLoop false l false [] 0
    if out.length = 0 then "." else String.mk out.reverse

/-- Go `filepath.Dir` for Unix paths (empty volume name): strip the final
path element after the last separator, then `Clean`. -/
def filepathDir (path : String) : String :=
  clean (String.mk ((path.toList.reverse.dropWhile (fun c => c != '/')).reverse))

/-- Go `strings.TrimSpace` (for the ASCII white space characters). -/
def goTrimSpace (s : String) : String :=
  let ws : Char → Bool := fun c =>
    c = ' ' ∨ c = '\t' ∨ c = '\n' ∨ c = '\x0b' ∨ c = '\x0c' ∨ c = '\r'
  String.mk (((s.toList.dropWhile ws).reverse.dropWhile ws).reverse)

/-- Go `strings.ToUpper` (for ASCII characters, the only ones the dispatch
table compares against). -/
def goToUpper (s : String) : String :=
  String.mk (s.toList.map Char.toUpper)

/-- Go `windowsExplorerBinArgs`. -/
def windowsExplorerBinArgs : ExplorerBinArgs := fun path selectFile =>
  let args : List String :=
    if selectFile then ["/select,\"" ++ path ++ "\""] else [path]
  ("explorer", args, none)

/-- Go `darwinExplorerBinArgs`. -/
def darwinExplorerBinArgs : ExplorerBinArgs := fun path selectFile =>
  let args : List String := if selectFile then ["-R"] else []
  ("open", args ++ [path], none)

/-- Go `linuxGnomeExplorerBinArgs`. -/
def linuxGnomeExplorerBinArgs : ExplorerBinArgs := fun path selectFile =>
  let path := if !selectFile then filepathDir path else path
  ("nautilus", [path], none)

/-- Go `linuxKdeExplorerBinArgs`. -/
def linuxKdeExplorerBinArgs : ExplorerBinArgs := fun path selectFile =>
  let path := if !selectFile then filepathDir path else path
  ("dolphin", [path], none)

/-- Go `linuxXfceExplorerBinArgs`. -/
def linuxXfceExplorerBinArgs : ExplorerBinArgs := fun path selectFile =>
  let path := if !selectFile then filepathDir path else path
  ("thunar", [path], none)

/-- Go `linuxMateExplorerBinArgs`. -/
def linuxMateExplorerBinArgs : ExplorerBinArgs := fun path selectFile =>
  let path := if !selectFile then filepathDir path else path
  ("caja", [path], none)

/-- Go `linuxLxqtExplorerBinArgs`. -/
def linuxLxqtExplorerBinArgs : ExplorerBinArgs := fun path selectFile =>
  let path := if !selectFile then filepathDir path else path
  ("pcmanfm-qt", [path], none)

/-- Go `linuxCinnamonExplorerBinArgs`. -/
def linuxCinnamonExplorerBinArgs : ExplorerBinArgs := fun path selectFile =>
  let path := if !selectFile then filepathDir path else path
  ("nemo", [path], none)

/-- Go `linuxFallbackExplorerBinArgs`; intentionally ignores `selectFile`. -/
def linuxFallbackExplorerBinArgs : ExplorerBinArgs := fun path _ =>
  ("xdg-open", [filepathDir path], none)

/-- Go `linuxExplorerBinArgs`, with the `XDG_CURRENT_DESKTOP` environment
read (its single ambient input) passed explicitly. -/
def linuxExplorerBinArgs (xdgCurrentDesktop : String) : ExplorerBinArgs :=
  fun path selectFile =>
  let desktopEnvironment := goToUpper (goTrimSpace xdgCurrentDesktop)
  let explorerBinArgs : ExplorerBinArgs :=
    if desktopEnvironment = "CINNAMON" ∨ desktopEnvironment = "X-CINNAMON" then
      linuxCinnamonExplorerBinArgs
    else if desktopEnvironment = "GNOME" ∨ desktopEnvironment = "GNOME-FLASHBACK"
        ∨ desktopEnvironment = "GNOME-FLASHBACK:GNOME" then
      linuxGnomeExplorerBinArgs
    else if desktopEnvironment = "KDE" then
      linuxKdeExplorerBinArgs
    else if desktopEnvironment = "LXQT" then
      linuxLxqtExplorerBinArgs
    else if desktopEnvironment = "MATE" then
      linuxMateExplorerBinArgs
    else if desktopEnvironment = "XFCE" then
      linuxXfceExplorerBinArgs
    else
      linuxFallbackExplorerBinArgs
  explorerBinArgs path selectFile

/-- The downgrade `selectFile = selectFile && !pathInfo.IsDir()` applied by
`Open` after a successful stat. -/
def effectiveSelect (pathInfo : PathInfo) (selectFile : Bool) : Bool :=
  selectFile && !pathInfo.isDir

/-- Go `Open`.  Returns the mapped outcome together with the
`(binary, args)` of the child process if one was successfully started
(`none` when `Open` returned before `cmd.Start`, or when `cmd.Start`
failed). -/
def Open (statResult : Option PathInfo) (goos xdgCurrentDesktop : String)
    (proc : ProcResult) (path : String) (selectFile : Bool) :
    OpenResult × Option (String × List String) :=
  match statResult with
  | none => (OpenResult.pathAccessError, none)
  | some pathInfo =>
    let selectFile := effectiveSelect pathInfo selectFile
    let strategy : Option (ExplorerBinArgs × Bool) :=
      if goos = "windows" then some (windowsExplorerBinArgs, true)
      else if goos = "darwin" then some (darwinExplorerBinArgs, false)
      else if goos = "linux" then some (linuxExplorerBinArgs xdgCurrentDesktop, false)
      else none
    match strategy with
    | none => (OpenResult.unsupportedPlatform, none)
    | some (explorerBinArgs, ignoreExitCode) =>
      let eba := explorerBinArgs path selectFile
      match eba.2.2 with
      | some _ => (OpenResult.strategyError, none)
      | none =>
        match proc with
        | ProcResult.startFailure => (OpenResult.processStartError, none)
        | ProcResult.exited code =>
          if code = 0 then (OpenResult.ok, some (eba.1, eba.2.1))
          else if ignoreExitCode then (OpenResult.ok, some (eba.1, eba.2.1))
          else (OpenResult.processExecError, some (eba.1, eba.2.1))

/-- Every Linux strategy, whichever desktop environment is dispatched on,
returns a `nil` error component. -/
theorem linuxExplorerBinArgs_err_eq_none (xdg path : String) (selectFile : Bool) :
    (linuxExplorerBinArgs xdg path selectFile).2.2 = none := by
  simp only [linuxExplorerBinArgs]
  split_ifs <;> rfl

/-- The Linux dispatch always yields a singleton argument list. -/
theorem linuxExplorerBinArgs_args_false (xdg path : String) :
    (linuxExplorerBinArgs xdg path false).2.1 = [filepathDir path] := by
  simp only [linuxExplorerBinArgs]
  split_ifs <;> rfl

/-- C4: for every path whose stat fails, `Open` returns the path-access
error immediately: the outcome is independent of the platform, the desktop
environment and any process behaviour, and no child process is launched. -/
theorem open_stat_failure (goos xdg : String) (proc : ProcResult) (path : String)
    (selectFile : Bool) :
    Open none goos xdg proc path selectFile = (OpenResult.pathAccessError, none) := rfl

/-- C6: the Windows strategy always resolves to `explorer`; with selection
the single argument is `/select,"<path>"` (quotes included), otherwise it
is the bare path, and the error component is always `nil`. -/
theorem windows_strategy_spec (path : String) (selectFile : Bool) :
    windowsExplorerBinArgs path selectFile =
      ("explorer",
       if selectFile then ["/select,\"" ++ path ++ "\""] else [path],
       none) := rfl

/-- C7: the macOS strategy always resolves to `open`; with selection the
arguments are `["-R", path]`, otherwise `[path]`; in particular selecting
`/Users/a/file.txt` yields `open -R /Users/a/file.txt`. -/
theorem darwin_strategy_spec (path : String) :
    darwinExplorerBinArgs path true = ("open", ["-R", path], none) ∧
    darwinExplorerBinArgs path false = ("open", [path], none) ∧
    darwinExplorerBinArgs "/Users/a/file.txt" true =
      ("open", ["-R", "/Users/a/file.txt"], none) :=
  ⟨rfl, rfl, rfl⟩

/-- C1: when the child exits non-zero, the Windows strategy family maps the
outcome to success (the exit code is ignored), while a start-stage failure
is still an error; the macOS and Linux families honour the non-zero exit
code as a process-execution error. -/
theorem open_exit_code_policy (pathInfo : PathInfo) (xdg path : String) (selectFile : Bool)
    (code : Nat) (hcode : code ≠ 0) :
    (Open (some pathInfo) "windows" xdg (ProcResult.exited code) path selectFile).1 =
      OpenResult.ok ∧
    (Open (some pathInfo) "windows" xdg ProcResult.startFailure path selectFile).1 =
      OpenResult.processStartError ∧
    (Open (some pathInfo) "darwin" xdg (ProcResult.exited code) path selectFile).1 =
      OpenResult.processExecError ∧
    (Open (some pathInfo) "linux" xdg (ProcResult.exited code) path selectFile).1 =
      OpenResult.processExecError := by
  refine ⟨?_, ?_, ?_, ?_⟩ <;>
    simp [Open, hcode, windowsExplorerBinArgs, darwinExplorerBinArgs,
      linuxExplorerBinArgs_err_eq_none]

/-- C1 witness: concrete instance with exit code 1. -/
theorem open_exit_code_policy_witness :
    (Open (some { isDir := false }) "windows" "" (ProcResult.exited 1) "/tmp/f" true).1 =
      OpenResult.ok ∧
    (Open (some { isDir := false }) "windows" "" ProcResult.startFailure "/tmp/f" true).1 =
      OpenResult.processStartError ∧
    (Open (some { isDir := false }) "darwin" "" (ProcResult.exited 1) "/tmp/f" true).1 =
      OpenResult.processExecError ∧
    (Open (some { isDir := false }) "linux" "" (ProcResult.exited 1) "/tmp/f" true).1 =
      OpenResult.processExecError :=
  open_exit_code_policy { isDir := false } "" "/tmp/f" true 1 (by decide)

/-- C2: the Linux dispatch normalizes the `XDG_CURRENT_DESKTOP` value by
trimming and uppercasing and maps it to the executable of the table
(`nemo`, `nautilus`, `dolphin`, `pcmanfm-qt`, `caja`, `thunar`, fallback
`xdg-open`); in particular the raw value `"  gnome  "` with
`selectFile = false` resolves to `nautilus` applied to the parent
directory of the path. -/
theorem linux_desktop_dispatch (xdg path : String) (selectFile : Bool) :
    ((linuxExplorerBinArgs xdg path selectFile).1 =
      (let d := goToUpper (goTrimSpace xdg)
       if d = "CINNAMON" ∨ d = "X-CINNAMON" then "nemo"
       else if d = "GNOME" ∨ d = "GNOME-FLASHBACK" ∨ d = "GNOME-FLASHBACK:GNOME" then "nautilus"
       else if d = "KDE" then "dolphin"
       else if d = "LXQT" then "pcmanfm-qt"
       else if d = "MATE" then "caja"
       else if d = "XFCE" then "thunar"
       else "xdg-open")) ∧
    linuxExplorerBinArgs "  gnome  " path false =
      ("nautilus", [filepathDir path], none) := by
  constructor
  · simp only [linuxExplorerBinArgs]
    split_ifs <;> rfl
  · rfl

/-- C3: every named Linux desktop strategy passes the path itself when
selection is requested and the containing directory otherwise; the
fallback always passes the containing directory; in particular an
unrecognized desktop with `selectFile = true` on `/home/user/doc.txt`
resolves to `xdg-open /home/user`. -/
theorem linux_strategy_args (path : String) (selectFile : Bool) :
    linuxCinnamonExplorerBinArgs path selectFile =
      ("nemo", [if selectFile then path else filepathDir path], none) ∧
    linuxGnomeExplorerBinArgs path selectFile =
      ("nautilus", [if selectFile then path else filepathDir path], none) ∧
    linuxKdeExplorerBinArgs path selectFile =
      ("dolphin", [if selectFile then path else filepathDir path], none) ∧
    linuxLxqtExplorerBinArgs path selectFile =
      ("pcmanfm-qt", [if selectFile then path else filepathDir path], none) ∧
    linuxMateExplorerBinArgs path selectFile =
      ("caja", [if selectFile then path else filepathDir path], none) ∧
    linuxXfceExplorerBinArgs path selectFile =
      ("thunar", [if selectFile then path else filepathDir path], none) ∧
    linuxFallbackExplorerBinArgs path selectFile =
      ("xdg-open", [filepathDir path], none) ∧
    linuxExplorerBinArgs "Unity" "/home/user/doc.txt" true =
      ("xdg-open", ["/home/user"], none) := by
  cases selectFile <;> exact ⟨rfl, rfl, rfl, rfl, rfl, rfl, rfl, rfl⟩

/-- C5: when the stat result says the path is a directory, a `true`
selection request is downgraded to `false`, so `Open` behaves exactly as
if selection had not been requested. -/
theorem directory_select_downgrade (pathInfo : PathInfo) (hdir : pathInfo.isDir = true)
    (goos xdg : String) (proc : ProcResult) (path : String) :
    effectiveSelect pathInfo true = false ∧
    Open (some pathInfo) goos xdg proc path true =
      Open (some pathInfo) goos xdg proc path false := by
  constructor
  · simp [effectiveSelect, hdir]
  · simp [Open, effectiveSelect, hdir]

/-- C5 witness: concrete directory instance. -/
theorem directory_select_downgrade_witness :
    { isDir := true : PathInfo }.isDir = true ∧
    (effectiveSelect { isDir := true } true = false ∧
     Open (some { isDir := true }) "linux" "KDE" (ProcResult.exited 0) "/tmp/dir" true =
       Open (some { isDir := true }) "linux" "KDE" (ProcResult.exited 0) "/tmp/dir" false) :=
  ⟨rfl, directory_select_downgrade { isDir := true } rfl "linux" "KDE"
    (ProcResult.exited 0) "/tmp/dir"⟩

/-- C8: any operating-system identity other than `windows`, `darwin` and
`linux` makes `Open` fail with the unsupported-platform error and no
child process is launched. -/
theorem open_unsupported_platform (pathInfo : PathInfo) (goos xdg : String)
    (proc : ProcResult) (path : String) (selectFile : Bool)
    (hw : goos ≠ "windows") (hd : goos ≠ "darwin") (hl : goos ≠ "linux") :
    Open (some pathInfo) goos xdg proc path selectFile =
      (OpenResult.unsupportedPlatform, none) := by
  simp [Open, hw, hd, hl]

/-- C8 witness: concrete unsupported platform `plan9`. -/
theorem open_unsupported_platform_witness :
    ("plan9" : String) ≠ "windows" ∧ ("plan9" : String) ≠ "darwin" ∧
    ("plan9" : String) ≠ "linux" ∧
    Open (some { isDir := false }) "plan9" "" (ProcResult.exited 0) "/tmp/f" false =
      (OpenResult.unsupportedPlatform, none) :=
  ⟨by decide, by decide, by decide,
   open_unsupported_platform { isDir := false } "plan9" "" (ProcResult.exited 0) "/tmp/f"
     false (by decide) (by decide) (by decide)⟩

/-- C9: none of the implemented strategies can fail to compute a launch
spec: the error component of every strategy is `nil` for all inputs, and
consequently the strategy-resolution error branch of `Open` is
unreachable. -/
theorem strategies_never_fail (statResult : Option PathInfo) (goos xdg path : String)
    (proc : ProcResult) (selectFile : Bool) :
    (windowsExplorerBinArgs path selectFile).2.2 = none ∧
    (darwinExplorerBinArgs path selectFile).2.2 = none ∧
    (linuxCinnamonExplorerBinArgs path selectFile).2.2 = none ∧
    (linuxGnomeExplorerBinArgs path selectFile).2.2 = none ∧
    (linuxKdeExplorerBinArgs path selectFile).2.2 = none ∧
    (linuxLxqtExplorerBinArgs path selectFile).2.2 = none ∧
    (linuxMateExplorerBinArgs path selectFile).2.2 = none ∧
    (linuxXfceExplorerBinArgs path selectFile).2.2 = none ∧
    (linuxFallbackExplorerBinArgs path selectFile).2.2 = none ∧
    (linuxExplorerBinArgs xdg path selectFile).2.2 = none ∧
    (Open statResult goos xdg proc path selectFile).1 ≠ OpenResult.strategyError := by
  refine ⟨rfl, rfl, rfl, rfl, rfl, rfl, rfl, rfl, rfl,
    linuxExplorerBinArgs_err_eq_none xdg path selectFile, ?_⟩
  cases statResult with
  | none => simp [Open]
  | some pathInfo =>
    simp only [Open]
    split_ifs <;>
      simp [windowsExplorerBinArgs, darwinExplorerBinArgs, linuxExplorerBinArgs_err_eq_none] <;>
      cases proc <;>
      simp <;>
      split_ifs <;>
      simp

/-- C10: for an existing directory on the Linux strategy family, whatever
selection was requested, the launched argument is the parent directory of
the given directory (`filepath.Dir` of the path), not the directory
itself. -/
theorem linux_directory_parent_arg (pathInfo : PathInfo) (hdir : pathInfo.isDir = true)
    (xdg path : String) (selectFile : Bool) (code : Nat) :
    (linuxExplorerBinArgs xdg path (effectiveSelect pathInfo selectFile)).2.1 =
      [filepathDir path] ∧
    (Open (some pathInfo) "linux" xdg (ProcResult.exited code) path selectFile).2.map
      Prod.snd = some [filepathDir path] := by
  have hsel : effectiveSelect pathInfo selectFile = false := by
    simp [effectiveSelect, hdir]
  constructor
  · rw [hsel]
    exact linuxExplorerBinArgs_args_false xdg path
  · simp only [Open, hsel]
    simp [linuxExplorerBinArgs_err_eq_none, linuxExplorerBinArgs_args_false]
    split_ifs <;> simp [linuxExplorerBinArgs_args_false]

/-- C10 witness: concrete directory `/home/user` with selection requested. -/
theorem linux_directory_parent_arg_witness :
    { isDir := true : PathInfo }.isDir = true ∧
    ((linuxExplorerBinArgs "" "/home/user" (effectiveSelect { isDir := true } true)).2.1 =
      [filepathDir "/home/user"] ∧
     (Open (some { isDir := true }) "linux" "" (ProcResult.exited 0) "/home/user" true).2.map
       Prod.snd = some [filepathDir "/home/user"]) :=
  ⟨rfl, linux_directory_parent_arg { isDir := true } rfl "" "/home/user" true 0⟩
